import Mathlib

/-
Verification of the n8n integration-connector sources (Jira Software node,
Elasticsearch document descriptors) against their natural-language
specification.  The JavaScript/TypeScript request builders are shallowly
embedded as pure Lean functions over a JSON-like value type; outbound HTTP
requests are recorded as explicit `NetCall` values so that ordering claims
("fails before the mutating call is issued") become statements about the
emitted call list.
-/

set_option autoImplicit false

namespace Connector

/-- JSON-like runtime values, the shape of the `IDataObject` values the
connector code manipulates. -/
inductive JVal where
  | null
  | bool (b : Bool)
  | num (n : Int)
  | str (s : String)
  | arr (xs : List JVal)
  | obj (fs : List (String × JVal))

/-- JavaScript truthiness of a defined value: `null`, `false`, `0` and the
empty string are falsy; arrays and objects are always truthy. -/
def JVal.truthy : JVal → Bool
  | .null => false
  | .bool b => b
  | .num n => n != 0
  | .str s => s != ""
  | .arr _ => true
  | .obj _ => true

/-- Truthiness of a possibly-absent (`undefined`) property: `undefined` is
falsy. -/
def jtruthy : Option JVal → Bool
  | some v => v.truthy
  | none => false

/-- Truthiness of a possibly-absent string-typed property. -/
def struthy : Option String → Bool
  | some s => s != ""
  | none => false

/-- JS strict-equality test `x === ''`. -/
def isEmptyStr : JVal → Bool
  | .str s => s == ""
  | _ => false

section KV

variable {α : Type}

/-- Property lookup on a JS object represented as a key-ordered association
list. -/
def getKV : List (String × α) → String → Option α
  | [], _ => none
  | (k, v) :: fs, key => if k = key then some v else getKV fs key

/-- Property assignment `obj[k] = v` on a JS object: an existing key keeps
its position and has its value overwritten, a new key is appended. -/
def assignKV : List (String × α) → String → α → List (String × α)
  | [], k, v => [(k, v)]
  | (k', v') :: fs, k, v =>
    if k' = k then (k, v) :: fs else (k', v') :: assignKV fs k v

end KV

/-- An outbound HTTP request as issued through `jiraSoftwareCloudApiRequest`:
method, endpoint path, JSON body and query-string map. -/
structure NetCall where
  method : String
  path : String
  body : JVal
  qs : List (String × JVal)

/-- Runtime failures of `Jira.execute`: a deliberate `NodeOperationError`
validation throw, or an unguarded JS `TypeError` (e.g. reading `length` of
`undefined`). -/
inductive RunError where
  | nodeOperationError (msg : String)
  | typeError (msg : String)

/-- Outcome of processing one input record: the network calls issued for it,
in order, and the error that aborted it, if any. -/
structure RecordResult where
  calls : List NetCall
  error : Option RunError

/-- One entry of the `/api/2/issuetype` lookup response: an issue-type id and
its `subtask` flag. -/
structure IssueTypeBean where
  id : String
  subtask : Bool

/-- The `subtaskIssues` accumulation loop: ids of the issue types whose
`subtask` flag is set. -/
def subtaskIds (issueTypes : List IssueTypeBean) : List String :=
  (issueTypes.filter (fun t => t.subtask)).map (fun t => t.id)

/-- The `additionalFields` collection of the Jira issue create operation, as
read by `Jira.execute`; `none` models an absent (`undefined`) property.
`customFieldsUi` nests the `customFieldsValues` array, itself optional. -/
structure CreateAdditionalFields where
  labels : Option (List String) := none
  serverLabels : Option (List String) := none
  priority : Option String := none
  assignee : Option String := none
  reporter : Option String := none
  description : Option String := none
  updateHistory : Option Bool := none
  componentIds : Option (List String) := none
  customFieldsUi : Option (Option (List (String × JVal))) := none
  parentIssueKey : Option String := none

/-- The `fields` object assembled by the issue create handler before the
sub-task check (part_000 lines 796-848).  Arrays and objects are truthy in
JS, so presence (`isSome`) is the guard for array/object-typed properties,
while string-typed properties additionally require non-emptiness. -/
def buildCreateFields (jiraVersion : String) (summary projectId issueTypeId : String)
    (af : CreateAdditionalFields) : List (String × JVal) :=
  let fields : List (String × JVal) :=
    [("summary", .str summary),
     ("project", .obj [("id", .str projectId)]),
     ("issuetype", .obj [("id", .str issueTypeId)])]
  let fields := if af.labels.isSome then
      assignKV fields "labels" (.arr ((af.labels.getD []).map .str)) else fields
  let fields := if af.serverLabels.isSome then
      assignKV fields "labels" (.arr ((af.serverLabels.getD []).map .str)) else fields
  let fields := if struthy af.priority then
      assignKV fields "priority" (.obj [("id", .str (af.priority.getD ""))]) else fields
  let fields := if struthy af.assignee then
      (if jiraVersion = "server" then
        assignKV fields "assignee" (.obj [("name", .str (af.assignee.getD ""))])
      else
        assignKV fields "assignee" (.obj [("id", .str (af.assignee.getD ""))])) else fields
  let fields := if struthy af.reporter then
      assignKV fields "reporter" (.obj [("id", .str (af.reporter.getD ""))]) else fields
  let fields := if struthy af.description then
      assignKV fields "description" (.str (af.description.getD "")) else fields
  let fields := if af.componentIds.isSome then
      assignKV fields "components"
        (.arr ((af.componentIds.getD []).map (fun id => .obj [("id", .str id)]))) else fields
  let fields := match af.customFieldsUi with
    | some (some cfs) => cfs.foldl (fun acc cf => assignKV acc cf.1 cf.2) fields
    | _ => fields
  fields

/-- The Jira issue create handler for one input record (part_000 lines
791-869): builds `fields`, optionally stores `updateHistory` in the shared
query-string map, issues the `/api/2/issuetype` lookup GET, applies the
sub-task parent validation, and on success issues the mutating POST.  The
issue-type lookup response is a parameter (it comes from the network). -/
def issueCreateRecord (jiraVersion : String) (issueTypes : List IssueTypeBean)
    (summary projectId issueTypeId : String) (af : CreateAdditionalFields)
    (qs0 : List (String × JVal)) : RecordResult × List (String × JVal) :=
  let qs := if af.updateHistory.getD false then
      assignKV qs0 "updateHistory" (.bool (af.updateHistory.getD false)) else qs0
  let fields := buildCreateFields jiraVersion summary projectId issueTypeId af
  let lookupCall : NetCall :=
    { method := "GET", path := "/api/2/issuetype", body := .obj [], qs := qs }
  let subs := subtaskIds issueTypes
  if !(struthy af.parentIssueKey) && subs.contains issueTypeId then
    ({ calls := [lookupCall],
       error := some (.nodeOperationError
         "You must define a Parent Issue Key when Issue type is sub-task") }, qs)
  else
    let fields := if struthy af.parentIssueKey && subs.contains issueTypeId then
        assignKV fields "parent"
          (.obj [("key", .str ((af.parentIssueKey.getD "").toUpper))]) else fields
    let body : JVal := .obj [("fields", .obj fields)]
    ({ calls := [lookupCall,
        { method := "POST", path := "/api/2/issue", body := body, qs := [] }],
       error := none }, qs)

/-- The `updateFields` collection of the Jira issue update operation, as read
by `Jira.execute`. -/
structure UpdateFields where
  summary : Option String := none
  issueType : Option String := none
  labels : Option (List String) := none
  serverLabels : Option (List String) := none
  priority : Option String := none
  assignee : Option String := none
  reporter : Option String := none
  description : Option String := none
  customFieldsUi : Option (Option (List (String × JVal))) := none
  parentIssueKey : Option String := none
  statusId : Option String := none

/-- The plain-property part of the `fields` object assembled by the issue
update handler (part_000 lines 877-915): it starts empty and each property is
added only when the corresponding `updateFields` entry is truthy. -/
def updateFieldsCore (jiraVersion : String) (uf : UpdateFields) :
    List (String × JVal) :=
  let fields : List (String × JVal) := []
  let fields := if struthy uf.summary then
      assignKV fields "summary" (.str (uf.summary.getD "")) else fields
  let fields := if struthy uf.issueType then
      assignKV fields "issuetype" (.obj [("id", .str (uf.issueType.getD ""))]) else fields
  let fields := if uf.labels.isSome then
      assignKV fields "labels" (.arr ((uf.labels.getD []).map .str)) else fields
  let fields := if uf.serverLabels.isSome then
      assignKV fields "labels" (.arr ((uf.serverLabels.getD []).map .str)) else fields
  let fields := if struthy uf.priority then
      assignKV fields "priority" (.obj [("id", .str (uf.priority.getD ""))]) else fields
  let fields := if struthy uf.assignee then
      (if jiraVersion = "server" then
        assignKV fields "assignee" (.obj [("name", .str (uf.assignee.getD ""))])
      else
        assignKV fields "assignee" (.obj [("id", .str (uf.assignee.getD ""))])) else fields
  let fields := if struthy uf.reporter then
      assignKV fields "reporter" (.obj [("id", .str (uf.reporter.getD ""))]) else fields
  let fields := if struthy uf.description then
      assignKV fields "description" (.str (uf.description.getD "")) else fields
  fields

/-- The `fields` object assembled by the issue update handler before the
sub-task check (part_000 lines 877-922): the plain properties plus the
`customFieldsUi.customFieldsValues` entries merged in by `Object.assign`. -/
def buildUpdateFields (jiraVersion : String) (uf : UpdateFields) :
    List (String × JVal) :=
  match uf.customFieldsUi with
  | some (some cfs) =>
    cfs.foldl (fun acc cf => assignKV acc cf.1 cf.2) (updateFieldsCore jiraVersion uf)
  | _ => updateFieldsCore jiraVersion uf

/-- JS `subtaskIssues.includes(updateFields.issueType)`: the `includes` test
against a possibly-absent issue type; `undefined` is never an element of a
list of string ids. -/
def includesOpt (subs : List String) (o : Option String) : Bool :=
  match o with
  | some t => subs.contains t
  | none => false

/-- The final update `fields` object: `buildUpdateFields` plus the `parent`
property added when a parent issue key was supplied for a sub-task type
(part_000 lines 934-939). -/
def finalUpdateFields (jiraVersion : String) (subs : List String)
    (uf : UpdateFields) : List (String × JVal) :=
  let fields := buildUpdateFields jiraVersion uf
  if struthy uf.parentIssueKey && includesOpt subs uf.issueType then
    assignKV fields "parent"
      (.obj [("key", .str ((uf.parentIssueKey.getD "").toUpper))])
  else fields

/-- The Jira issue update handler for one input record (part_000 lines
873-948): builds `fields`, issues the `/api/2/issuetype` lookup GET, applies
the sub-task parent validation, optionally issues the status-transition POST,
and issues the mutating PUT. -/
def issueUpdateRecord (jiraVersion : String) (issueTypes : List IssueTypeBean)
    (issueKey : String) (uf : UpdateFields) : RecordResult :=
  let lookupCall : NetCall :=
    { method := "GET", path := "/api/2/issuetype", body := .obj [], qs := [] }
  let subs := subtaskIds issueTypes
  if !(struthy uf.parentIssueKey) && includesOpt subs uf.issueType then
    { calls := [lookupCall],
      error := some (.nodeOperationError
        "You must define a Parent Issue Key when Issue type is sub-task") }
  else
    let fields := finalUpdateFields jiraVersion subs uf
    let body : JVal := .obj [("fields", .obj fields)]
    let transitionCalls : List NetCall := if struthy uf.statusId then
        [{ method := "POST", path := "/api/2/issue/" ++ issueKey ++ "/transitions",
           body := .obj [("transition", .obj [("id", .str (uf.statusId.getD ""))])],
           qs := [] }] else []
    { calls := [lookupCall] ++ transitionCalls ++
        [{ method := "PUT", path := "/api/2/issue/" ++ issueKey, body := body, qs := [] }],
      error := none }

/-- The `parent` entry of a call's `body.fields` object, when there is one. -/
def bodyParentKey (c : NetCall) : Option JVal :=
  match c.body with
  | .obj fs =>
    match getKV fs "fields" with
    | some (.obj fields) => getKV fields "parent"
    | _ => none
  | _ => none

/-- The key `k` corresponds to an entry actually present (and truthy) in the
collected `updateFields` input map. -/
def UpdateFields.presentKey (uf : UpdateFields) (k : String) : Prop :=
  (k = "summary" ∧ struthy uf.summary = true) ∨
  (k = "issuetype" ∧ struthy uf.issueType = true) ∨
  (k = "labels" ∧ (uf.labels.isSome = true ∨ uf.serverLabels.isSome = true)) ∨
  (k = "priority" ∧ struthy uf.priority = true) ∨
  (k = "assignee" ∧ struthy uf.assignee = true) ∨
  (k = "reporter" ∧ struthy uf.reporter = true) ∨
  (k = "description" ∧ struthy uf.description = true) ∨
  (∃ cfs, uf.customFieldsUi = some (some cfs) ∧ ∃ cf ∈ cfs, cf.1 = k) ∨
  (k = "parent" ∧ struthy uf.parentIssueKey = true)

/-- The value of body property `k` of a call, when the body is an object. -/
def bodyField (c : NetCall) (k : String) : Option JVal :=
  match c.body with
  | .obj fs => getKV fs k
  | _ => none

/-- JS `delete obj[k]`. -/
def removeKV {α : Type} (fs : List (String × α)) (k : String) : List (String × α) :=
  fs.filter (fun p => p.1 ≠ k)

/-- Modelled from the spec: `validateJSON` lives in the connector's
`GenericFunctions` module, which is not among the reviewed sources.  Per the
spec's JSON-passthrough contract ("pass through caller-supplied JSON verbatim
when the caller opts into raw-JSON mode, failing with a validation error if
that JSON is syntactically invalid") and its call sites here (which compare
the result against the empty string to detect failure), it returns the parsed
JSON value of its string argument, and the empty string when the argument
does not parse.  A raw JSON parameter is accordingly embedded as
`Option JVal`: `some v` when the supplied string parses to `v`, `none` when
it is syntactically invalid. -/
def validateJSON : Option JVal → JVal
  | some v => v
  | none => .str ""

/-- The Atlassian structured-document envelope wrapped around a plain-text
comment for the cloud API (part_000 lines 1252-1268). -/
def docEnvelope (comment : String) : JVal :=
  .obj [("type", .str "doc"), ("version", .num 1),
        ("content", .arr [
          .obj [("type", .str "paragraph"),
                ("content", .arr [
                  .obj [("type", .str "text"), ("text", .str comment)]])]])]

/-- Input parameters of the issue comment add/update operations; `commentJson`
is the parse outcome of the raw `commentJson` string (`none` = invalid). -/
structure CommentParams where
  jsonParameters : Bool
  issueKey : String
  commentId : String := ""
  options : List (String × JVal) := []
  comment : String := ""
  commentJson : Option JVal := none

/-- The issue comment add handler for one input record (part_000 lines
1236-1282): `options.expand` moves into the shared query-string map, the
remaining options merge into the body, and the `body` property is either the
(possibly envelope-wrapped) plain comment or the validated raw JSON. -/
def issueCommentAddRecord (jiraVersion : String) (qs0 : List (String × JVal))
    (p : CommentParams) : RecordResult × List (String × JVal) :=
  let apiVersion := if jiraVersion = "server" then "2" else "3"
  let expandVal := getKV p.options "expand"
  let qs := if jtruthy expandVal then
      assignKV qs0 "expand" (expandVal.getD .null) else qs0
  let opts := if jtruthy expandVal then removeKV p.options "expand" else p.options
  let body := opts.foldl (fun acc q => assignKV acc q.1 q.2) ([] : List (String × JVal))
  let path := "/api/" ++ apiVersion ++ "/issue/" ++ p.issueKey ++ "/comment"
  if p.jsonParameters = false then
    let body := if jiraVersion = "server" then assignKV body "body" (.str p.comment)
      else assignKV body "body" (docEnvelope p.comment)
    ({ calls := [{ method := "POST", path := path, body := .obj body, qs := qs }],
       error := none }, qs)
  else
    let json := validateJSON p.commentJson
    if isEmptyStr json then
      ({ calls := [],
         error := some (.nodeOperationError "Document Format must be a valid JSON") }, qs)
    else
      ({ calls := [{ method := "POST", path := path,
                     body := .obj (assignKV body "body" json), qs := qs }],
         error := none }, qs)

/-- The issue comment update handler for one input record (part_000 lines
1325-1370); unlike the add handler, here the remaining options merge into the
shared query-string map and the body holds only the `body` property. -/
def issueCommentUpdateRecord (jiraVersion : String) (qs0 : List (String × JVal))
    (p : CommentParams) : RecordResult × List (String × JVal) :=
  let apiVersion := if jiraVersion = "server" then "2" else "3"
  let expandVal := getKV p.options "expand"
  let qs := if jtruthy expandVal then
      assignKV qs0 "expand" (expandVal.getD .null) else qs0
  let opts := if jtruthy expandVal then removeKV p.options "expand" else p.options
  let qs := opts.foldl (fun acc q => assignKV acc q.1 q.2) qs
  let body : List (String × JVal) := []
  let path := "/api/" ++ apiVersion ++ "/issue/" ++ p.issueKey ++ "/comment/" ++ p.commentId
  if p.jsonParameters = false then
    let body := if jiraVersion = "server" then assignKV body "body" (.str p.comment)
      else assignKV body "body" (docEnvelope p.comment)
    ({ calls := [{ method := "PUT", path := path, body := .obj body, qs := qs }],
       error := none }, qs)
  else
    let json := validateJSON p.commentJson
    if isEmptyStr json then
      ({ calls := [],
         error := some (.nodeOperationError "Document Format must be a valid JSON") }, qs)
    else
      ({ calls := [{ method := "PUT", path := path,
                     body := .obj (assignKV body "body" json), qs := qs }],
         error := none }, qs)

/-- The `notificationRecipientsValues` object of the issue notify operation;
each property may be absent (`undefined`). -/
structure NotifyRecipientsValues where
  reporter : Option JVal := none
  assignee : Option JVal := none
  watchers : Option JVal := none
  voters : Option JVal := none
  users : Option (List JVal) := none
  groups : Option (List JVal) := none

/-- The `notificationRecipientsRestrictionsValues` object. -/
structure NotifyRestrictionsValues where
  groups : Option (List JVal) := none

/-- The `notificationRecipients` object built by the issue notify handler
(part_000 lines 1034-1074).  Values are `Option JVal` because JS property
assignment can store `undefined` (e.g. `watchers` when the input lacks it);
reading `.length` of an absent `users`/`groups` array is an unguarded JS
`TypeError`, modelled as the `Except` error case. -/
def buildNotificationRecipients (r : NotifyRecipientsValues) :
    Except RunError (List (String × Option JVal)) :=
  let to0 : List (String × Option JVal) := []
  let to0 := if jtruthy r.reporter then assignKV to0 "reporter" r.reporter else to0
  let to0 := if jtruthy r.assignee then assignKV to0 "assignee" r.assignee else to0
  let to0 := if jtruthy r.assignee then assignKV to0 "watchers" r.watchers else to0
  let to0 := if jtruthy r.voters then assignKV to0 "watchers" r.voters else to0
  match r.users with
  | none => .error (.typeError "Cannot read properties of undefined (reading length)")
  | some us =>
    let to0 := if us.length > 0 then
        assignKV to0 "users"
          (some (.arr (us.map (fun u => .obj [("accountId", u)])))) else to0
    match r.groups with
    | none => .error (.typeError "Cannot read properties of undefined (reading length)")
    | some gs =>
      .ok (if gs.length > 0 then
        assignKV to0 "groups"
          (some (.arr (gs.map (fun g => .obj [("name", g)])))) else to0)

/-- The `notificationRecipientsRestrictions` object built by the issue notify
handler (part_000 lines 1077-1088). -/
def buildNotificationRestrictions (r : NotifyRestrictionsValues) :
    Except RunError (List (String × Option JVal)) :=
  match r.groups with
  | none => .error (.typeError "Cannot read properties of undefined (reading length)")
  | some gs =>
    .ok (if gs.length > 0 then
      assignKV ([] : List (String × Option JVal)) "groups"
        (some (.arr (gs.map (fun g => .obj [("name", g)])))) else [])

/-- JSON serialization of a JS object whose properties may hold `undefined`:
`undefined`-valued properties are dropped from the wire body. -/
def jsObj (fs : List (String × Option JVal)) : JVal :=
  .obj (fs.filterMap (fun p => p.2.map (fun v => (p.1, v))))

/-- Input parameters of the issue notify operation; the two raw-JSON
parameters are parse outcomes (`none` = syntactically invalid string). -/
structure NotifyParams where
  issueKey : String
  textBody : Option JVal := none
  htmlBody : Option JVal := none
  jsonActive : Bool
  recipients : Option NotifyRecipientsValues := none
  restrictions : Option NotifyRestrictionsValues := none
  recipientsJson : Option JVal := none
  restrictionsJson : Option JVal := none

/-- The `to` recipients value of the notify body: `{}` when the
`notificationRecipientsValues` property is absent (the guard at part_000 line
1035 skips the whole block), otherwise the built object. -/
def buildTo : Option NotifyRecipientsValues →
    Except RunError (List (String × Option JVal))
  | none => .ok []
  | some r => buildNotificationRecipients r

/-- The `restrict` value of the notify body, analogous to `buildTo`
(part_000 lines 1076-1089). -/
def buildRestrict : Option NotifyRestrictionsValues →
    Except RunError (List (String × Option JVal))
  | none => .ok []
  | some r => buildNotificationRestrictions r

/-- The `textBody`/`htmlBody` part of the notify body (part_000 lines
1025-1031). -/
def notifyBaseBody (p : NotifyParams) : List (String × JVal) :=
  let body0 : List (String × JVal) := []
  let body0 := if jtruthy p.textBody then
      assignKV body0 "textBody" (p.textBody.getD .null) else body0
  if jtruthy p.htmlBody then
    assignKV body0 "htmlBody" (p.htmlBody.getD .null) else body0

/-- The issue notify handler for one input record (part_000 lines 1021-1101):
builds the `INotify` body — recipients either from the UI collections or from
the raw JSON parameters — and issues the notify POST.  In raw-JSON mode a
falsy `validateJSON` result (in particular an invalid JSON string) merely
skips the corresponding property; no error is raised. -/
def notifyRecord (p : NotifyParams) (qs : List (String × JVal)) : RecordResult :=
  let body0 := notifyBaseBody p
  let notifyCall := fun (body : List (String × JVal)) =>
    ({ calls := [{ method := "POST", path := "/api/2/issue/" ++ p.issueKey ++ "/notify",
                   body := .obj body, qs := qs }], error := none } : RecordResult)
  if p.jsonActive = false then
    match buildTo p.recipients with
    | .error e => { calls := [], error := some e }
    | .ok toList =>
      let body1 := assignKV body0 "to" (jsObj toList)
      match buildRestrict p.restrictions with
      | .error e => { calls := [], error := some e }
      | .ok restrictList =>
        notifyCall (assignKV body1 "restrict" (jsObj restrictList))
  else
    let rj := validateJSON p.recipientsJson
    let body1 := if rj.truthy then assignKV body0 "to" rj else body0
    let sj := validateJSON p.restrictionsJson
    let body2 := if sj.truthy then assignKV body1 "restrict" sj else body1
    notifyCall body2

/-- The issue attachment getAll handler's per-record result shaping (part_000
lines 1206-1216): the attachment list fetched from the issue is truncated via
`slice(0, limit)` when `returnAll` is false, then wrapped in `json`
envelopes. -/
def issueAttachmentGetAllRecord (attachment : List JVal) (returnAll : Bool)
    (limit : Nat) : List JVal :=
  let responseData := attachment
  let responseData := if returnAll = false then responseData.take limit else responseData
  responseData.map (fun d => .obj [("json", d)])

/-- The `options` collection of the Jira issue getAll operation, as read by
`Jira.execute` (part_000 lines 978-992). -/
structure IssueGetAllOptions where
  fields : Option String := none
  jql : Option String := none
  expand : Option JVal := none

/-- The search body assembled by the issue getAll handler before the
returnAll branch (part_000 lines 979-992): `fields` is comma-split, `jql`
passed through, and `expand` comma-split only when it is a string. -/
def buildIssueSearchBody (opts : IssueGetAllOptions) : List (String × JVal) :=
  let body : List (String × JVal) := []
  let body := if struthy opts.fields then
      assignKV body "fields"
        (.arr (((opts.fields.getD "").splitOn ",").map .str)) else body
  let body := if struthy opts.jql then
      assignKV body "jql" (.str (opts.jql.getD "")) else body
  if jtruthy opts.expand then
    (match opts.expand.getD .null with
     | .str s => assignKV body "expand" (.arr ((s.splitOn ",").map .str))
     | v => assignKV body "expand" v)
  else body

/-- The `responseData.issues` read of the issue getAll handler (part_000 line
999) on a search response object. -/
def responseIssues (response : JVal) : List JVal :=
  match response with
  | .obj fs =>
    match getKV fs "issues" with
    | some (.arr xs) => xs
    | _ => []
  | _ => []

/-- Modelled from the spec: the Jira `/api/2/search` endpoint is external to
the reviewed sources; per the spec's external-interface contract the body
shapes "are fixed by each target service's published API contract", and the
endpoint honours the request body's `maxResults` by returning an object whose
`issues` array holds only the first `maxResults` matching issues of the
backing data set. -/
def jiraSearchResponse (allIssues : List JVal) (requestBody : JVal) : JVal :=
  .obj [("issues", .arr
    (match requestBody with
     | .obj fs =>
       match getKV fs "maxResults" with
       | some (.num m) => allIssues.take m.toNat
       | _ => allIssues
     | _ => allIssues))]

/-- The issue getAll handler for one input record with "return all" = false
(part_000 lines 975-1002): the collected search body gains
`body.maxResults = limit`, the POST to `/api/2/search` is issued, and the
response's `issues` array is what gets appended to the output list.  The
network is abstracted as a `server` function from the outbound request body
to the response. -/
def issueGetAllRecordLimited (server : JVal → JVal) (opts : IssueGetAllOptions)
    (limit : Nat) : NetCall × List JVal :=
  let body := buildIssueSearchBody opts
  let body := assignKV body "maxResults" (.num limit)
  let call : NetCall :=
    { method := "POST", path := "/api/2/search", body := .obj body, qs := [] }
  let responseData := server call.body
  (call, responseIssues responseData)

/-- The `additionalFields` collection of the Jira issue get operation.  The
connector stores each truthy entry into the shared query-string map. -/
structure IssueGetAdditionalFields where
  fields : Option JVal := none
  fieldsByKey : Option JVal := none
  expand : Option JVal := none
  properties : Option JVal := none
  updateHistory : Option JVal := none

/-- The issue get handler for one input record (part_000 lines 952-971): the
query-string map `qs` is the one declared once per `execute` invocation, so
it is received from — and handed back to — the surrounding loop. -/
def issueGetRecord (qs : List (String × JVal)) (issueKey : String)
    (af : IssueGetAdditionalFields) : List (String × JVal) × NetCall :=
  let qs := if jtruthy af.fields then
      assignKV qs "fields" (af.fields.getD .null) else qs
  let qs := if jtruthy af.fieldsByKey then
      assignKV qs "fieldsByKey" (af.fieldsByKey.getD .null) else qs
  let qs := if jtruthy af.expand then
      assignKV qs "expand" (af.expand.getD .null) else qs
  let qs := if jtruthy af.properties then
      assignKV qs "properties" (af.properties.getD .null) else qs
  let qs := if jtruthy af.updateHistory then
      assignKV qs "updateHistory" (af.updateHistory.getD .null) else qs
  (qs, { method := "GET", path := "/api/2/issue/" ++ issueKey, body := .obj [], qs := qs })

/-- The issue get loop over a batch of input records (part_000 lines 951-973):
`qs` starts as the single `const qs: IDataObject = {}` of `execute` and is
threaded through every record. -/
def issueGetBatch (records : List (String × IssueGetAdditionalFields)) :
    List NetCall :=
  (records.foldl
    (fun (acc : List (String × JVal) × List NetCall) r =>
      let next := issueGetRecord acc.1 r.1 r.2
      (next.1, acc.2 ++ [next.2]))
    (([] : List (String × JVal)), ([] : List NetCall))).2

/-- A `displayOptions.show` predicate of an n8n field descriptor: every listed
parameter must currently hold one of the listed values. -/
structure DisplayShow where
  resource : List String
  operation : List String
  dataToSend : Option (List String) := none

/-- Visibility of a field descriptor given the current `resource`,
`operation` and `dataToSend` selections. -/
def DisplayShow.visible (d : DisplayShow) (resource operation dataToSend : String) : Bool :=
  d.resource.contains resource && d.operation.contains operation &&
    (match d.dataToSend with
     | none => true
     | some vs => vs.contains dataToSend)

/-- The option values of the Elasticsearch document `dataToSend` discriminator
(DocumentDescription.ts). -/
def dataToSendOptions : List String := ["defineBelow", "autoMapInputData"]

/-- Display condition of `inputsToIgnore` for document create
(DocumentDescription.ts lines 548-567). -/
def inputsToIgnoreCreateShow : DisplayShow :=
  { resource := ["document"], operation := ["create"],
    dataToSend := some ["autoMapInputData"] }

/-- Display condition of `fieldsUi` for document create (DocumentDescription.ts
lines 568-612). -/
def fieldsUiCreateShow : DisplayShow :=
  { resource := ["document"], operation := ["create"],
    dataToSend := some ["defineBelow"] }

/-- Display condition of `inputsToIgnore` for document update
(DocumentDescription.ts lines 721-742). -/
def inputsToIgnoreUpdateShow : DisplayShow :=
  { resource := ["document"], operation := ["update"],
    dataToSend := some ["autoMapInputData"] }

/-- Display condition of `fieldsUi` for document update (DocumentDescription.ts
lines 743-787). -/
def fieldsUiUpdateShow : DisplayShow :=
  { resource := ["document"], operation := ["update"],
    dataToSend := some ["defineBelow"] }

/-- Modelled from the spec: the Elasticsearch document create/update
request-body builder is not among the reviewed sources (only the field
descriptors are).  Per the spec, "for all field maps where a discriminator
field selects mutually exclusive field groups, exactly one group's fields are
included in the built request body": with `dataToSend = defineBelow` the body
is built from the `fieldsUi` pairs, and with `dataToSend = autoMapInputData`
from the input item's properties minus the comma-separated `inputsToIgnore`
list. -/
def esDocumentBody (dataToSend : String) (fieldsUi : List (String × JVal))
    (inputItem : List (String × JVal)) (inputsToIgnore : String) :
    List (String × JVal) :=
  if dataToSend = "defineBelow" then fieldsUi
  else
    let ignore := (inputsToIgnore.splitOn ",").map (fun s => s.trim)
    inputItem.filter (fun p => !(ignore.contains p.1))

section KVLemmas

variable {α : Type}

theorem getKV_assignKV_self (fs : List (String × α)) (k : String) (v : α) :
    getKV (assignKV fs k v) k = some v := by
  induction fs with
  | nil => simp [assignKV, getKV]
  | cons p fs ih =>
    obtain ⟨k', v'⟩ := p
    by_cases hk : k' = k
    · simp [assignKV, hk, getKV]
    · simp [assignKV, hk, getKV, ih]

theorem getKV_assignKV_ne (fs : List (String × α)) (k k' : String) (v : α)
    (h : k' ≠ k) : getKV (assignKV fs k' v) k = getKV fs k := by
  induction fs with
  | nil => simp [assignKV, getKV, h]
  | cons p fs ih =>
    obtain ⟨k'', v''⟩ := p
    by_cases hk : k'' = k'
    · subst hk
      simp [assignKV, getKV, h]
    · by_cases hkk : k'' = k
      · simp [assignKV, hk, getKV, hkk, Ne.symm h]
      · simp [assignKV, hk, getKV, hkk, ih]

theorem mem_assignKV (fs : List (String × α)) (k' : String) (v : α)
    (p : String × α) (h : p ∈ assignKV fs k' v) : p ∈ fs ∨ p.1 = k' := by
  induction fs with
  | nil =>
    simp only [assignKV, List.mem_singleton] at h
    right; rw [h]
  | cons q fs ih =>
    obtain ⟨k'', v''⟩ := q
    by_cases hk : k'' = k'
    · simp only [assignKV, hk, if_true, List.mem_cons] at h
      rcases h with h | h
      · right; rw [h]
      · exact Or.inl (List.mem_cons_of_mem _ h)
    · simp only [assignKV, hk, if_false, List.mem_cons] at h
      rcases h with h | h
      · exact Or.inl (h ▸ List.mem_cons_self _ _)
      · rcases ih h with h' | h'
        · exact Or.inl (List.mem_cons_of_mem _ h')
        · exact Or.inr h'

theorem mem_foldl_assignKV (cfs : List (String × α)) (fs : List (String × α))
    (p : String × α)
    (h : p ∈ cfs.foldl (fun acc cf => assignKV acc cf.1 cf.2) fs) :
    p ∈ fs ∨ ∃ cf ∈ cfs, cf.1 = p.1 := by
  induction cfs generalizing fs with
  | nil => exact Or.inl h
  | cons cf cfs ih =>
    simp only [List.foldl_cons] at h
    rcases ih _ h with h' | h'
    · rcases mem_assignKV _ _ _ _ h' with h'' | h''
      · exact Or.inl h''
      · exact Or.inr ⟨cf, List.mem_cons_self _ _, h''.symm⟩
    · obtain ⟨cf', hcf', he⟩ := h'
      exact Or.inr ⟨cf', List.mem_cons_of_mem _ hcf', he⟩

end KVLemmas

theorem ite_assignKV_val {α : Type} (c : Prop) [Decidable c]
    (fs : List (String × α)) (k : String) (v1 v2 : α) :
    (if c then assignKV fs k v1 else assignKV fs k v2)
      = assignKV fs k (if c then v1 else v2) := by
  split <;> rfl

theorem getKV_ite_assignKV_ne {α : Type} (c : Prop) [Decidable c]
    (fs : List (String × α)) (k k' : String) (v : α) (h : k' ≠ k) :
    getKV (if c then assignKV fs k' v else fs) k = getKV fs k := by
  split
  · exact getKV_assignKV_ne fs k k' v h
  · rfl

theorem mem_ite_assignKV {α : Type} (b : Bool) (fs : List (String × α))
    (k' : String) (v : α) (p : String × α)
    (h : p ∈ (if b then assignKV fs k' v else fs)) :
    p ∈ fs ∨ (p.1 = k' ∧ b = true) := by
  cases b with
  | false => exact Or.inl (by simpa using h)
  | true =>
    rcases mem_assignKV _ _ _ _ (by simpa using h) with h' | h'
    · exact Or.inl h'
    · exact Or.inr ⟨h', rfl⟩

theorem mem_updateFieldsCore (jv : String) (uf : UpdateFields)
    (p : String × JVal) (h : p ∈ updateFieldsCore jv uf) :
    (p.1 = "summary" ∧ struthy uf.summary = true) ∨
    (p.1 = "issuetype" ∧ struthy uf.issueType = true) ∨
    (p.1 = "labels" ∧ (uf.labels.isSome = true ∨ uf.serverLabels.isSome = true)) ∨
    (p.1 = "priority" ∧ struthy uf.priority = true) ∨
    (p.1 = "assignee" ∧ struthy uf.assignee = true) ∨
    (p.1 = "reporter" ∧ struthy uf.reporter = true) ∨
    (p.1 = "description" ∧ struthy uf.description = true) := by
  simp only [updateFieldsCore, ite_assignKV_val] at h
  rcases mem_ite_assignKV _ _ _ _ _ h with h | hd
  case inr => iterate 6 right
              exact hd
  rcases mem_ite_assignKV _ _ _ _ _ h with h | hd
  case inr => iterate 5 right
              left; exact hd
  rcases mem_ite_assignKV _ _ _ _ _ h with h | hd
  case inr => iterate 4 right
              left; exact hd
  rcases mem_ite_assignKV _ _ _ _ _ h with h | hd
  case inr => iterate 3 right
              left; exact hd
  rcases mem_ite_assignKV _ _ _ _ _ h with h | hd
  case inr => iterate 2 right
              left; exact ⟨hd.1, Or.inr hd.2⟩
  rcases mem_ite_assignKV _ _ _ _ _ h with h | hd
  case inr => iterate 2 right
              left; exact ⟨hd.1, Or.inl hd.2⟩
  rcases mem_ite_assignKV _ _ _ _ _ h with h | hd
  case inr => right; left; exact hd
  rcases mem_ite_assignKV _ _ _ _ _ h with h | hd
  case inr => left; exact hd
  simp at h

theorem mem_buildUpdateFields (jv : String) (uf : UpdateFields)
    (p : String × JVal) (h : p ∈ buildUpdateFields jv uf) :
    (p.1 = "summary" ∧ struthy uf.summary = true) ∨
    (p.1 = "issuetype" ∧ struthy uf.issueType = true) ∨
    (p.1 = "labels" ∧ (uf.labels.isSome = true ∨ uf.serverLabels.isSome = true)) ∨
    (p.1 = "priority" ∧ struthy uf.priority = true) ∨
    (p.1 = "assignee" ∧ struthy uf.assignee = true) ∨
    (p.1 = "reporter" ∧ struthy uf.reporter = true) ∨
    (p.1 = "description" ∧ struthy uf.description = true) ∨
    (∃ cfs, uf.customFieldsUi = some (some cfs) ∧ ∃ cf ∈ cfs, cf.1 = p.1) := by
  unfold buildUpdateFields at h
  have core :
      p ∈ updateFieldsCore jv uf ∨
      (∃ cfs, uf.customFieldsUi = some (some cfs) ∧ ∃ cf ∈ cfs, cf.1 = p.1) := by
    rcases hcfu : uf.customFieldsUi with _ | cfv
    · rw [hcfu] at h
      exact Or.inl h
    · rcases cfv with _ | cfs
      · rw [hcfu] at h
        exact Or.inl h
      · rw [hcfu] at h
        rcases mem_foldl_assignKV _ _ _ h with h' | h'
        · exact Or.inl h'
        · obtain ⟨cf, hcf, he⟩ := h'
          exact Or.inr ⟨cfs, rfl, cf, hcf, he⟩
  rcases core with h | h
  · exact (mem_updateFieldsCore jv uf p h).imp id fun h => h.imp id fun h =>
      h.imp id fun h => h.imp id fun h => h.imp id fun h => h.imp id Or.inl
  · iterate 7 right
    exact h

/-- C1: for the Jira issue create and issue update operations, if the target
issue type id is among the sub-task-capable ids obtained from the issue-type
lookup and no parent issue key was supplied, the record fails validation
before the mutating POST/PUT is issued (only the lookup GET was sent); if a
parent issue key was supplied for a sub-task-capable type, the outbound
body's `fields.parent.key` is the supplied key uppercased. -/
theorem jira_subtask_parent_validation
    (jv : String) (its : List IssueTypeBean)
    (summary projectId issueTypeId : String) (af : CreateAdditionalFields)
    (qs0 : List (String × JVal)) (issueKey : String) (uf : UpdateFields) :
    ((subtaskIds its).contains issueTypeId = true →
      struthy af.parentIssueKey = false →
      (issueCreateRecord jv its summary projectId issueTypeId af qs0).1.error.isSome = true ∧
      (issueCreateRecord jv its summary projectId issueTypeId af qs0).1.calls.map
        (fun c => c.method) = ["GET"]) ∧
    (∀ pk, (subtaskIds its).contains issueTypeId = true →
      af.parentIssueKey = some pk → pk ≠ "" →
      (issueCreateRecord jv its summary projectId issueTypeId af qs0).1.error = none ∧
      (issueCreateRecord jv its summary projectId issueTypeId af qs0).1.calls.map
        (fun c => (c.method, bodyParentKey c)) =
        [("GET", none), ("POST", some (.obj [("key", .str pk.toUpper)]))]) ∧
    (includesOpt (subtaskIds its) uf.issueType = true →
      struthy uf.parentIssueKey = false →
      (issueUpdateRecord jv its issueKey uf).error.isSome = true ∧
      (issueUpdateRecord jv its issueKey uf).calls.map (fun c => c.method) = ["GET"]) ∧
    (∀ pk, includesOpt (subtaskIds its) uf.issueType = true →
      uf.parentIssueKey = some pk → pk ≠ "" →
      (issueUpdateRecord jv its issueKey uf).error = none ∧
      (issueUpdateRecord jv its issueKey uf).calls.map
        (fun c => (c.method, bodyParentKey c)) =
        [("GET", none)] ++ (if struthy uf.statusId then [("POST", none)] else []) ++
          [("PUT", some (.obj [("key", .str pk.toUpper)]))]) := by
  refine ⟨?_, ?_, ?_, ?_⟩
  · intro hc hp
    have hmem : issueTypeId ∈ subtaskIds its := by simpa using hc
    simp [issueCreateRecord, hmem, hp]
  · intro pk hc hpk hne
    have hmem : issueTypeId ∈ subtaskIds its := by simpa using hc
    have hps : struthy (some pk) = true := by simp [struthy, hne]
    constructor
    · simp [issueCreateRecord, hmem, hpk, hps]
    · simp [issueCreateRecord, hmem, hpk, hps, bodyParentKey, getKV,
        getKV_assignKV_self]
  · intro hc hp
    simp [issueUpdateRecord, hc, hp]
  · intro pk hc hpk hne
    have hps : struthy (some pk) = true := by simp [struthy, hne]
    constructor
    · simp [issueUpdateRecord, hc, hpk, hps]
    · by_cases hst : struthy uf.statusId = true
      · simp [issueUpdateRecord, hc, hpk, hps, hst, finalUpdateFields,
          bodyParentKey, getKV, getKV_assignKV_self]
      · simp only [Bool.not_eq_true] at hst
        simp [issueUpdateRecord, hc, hpk, hps, hst, finalUpdateFields,
          bodyParentKey, getKV, getKV_assignKV_self]

/-- C1 witness: concrete records exercising all four branches, with issue
type `10003` sub-task-capable. -/
theorem jira_subtask_parent_validation_witness :
    ((issueCreateRecord "cloud" [⟨"10000", false⟩, ⟨"10003", true⟩] "s" "P1" "10003"
        {} []).1.error.isSome = true ∧
     (issueCreateRecord "cloud" [⟨"10000", false⟩, ⟨"10003", true⟩] "s" "P1" "10003"
        {} []).1.calls.map (fun c => c.method) = ["GET"]) ∧
    ((issueCreateRecord "cloud" [⟨"10000", false⟩, ⟨"10003", true⟩] "s" "P1" "10003"
        { parentIssueKey := some "par-1" } []).1.error = none ∧
     (issueCreateRecord "cloud" [⟨"10000", false⟩, ⟨"10003", true⟩] "s" "P1" "10003"
        { parentIssueKey := some "par-1" } []).1.calls.map
        (fun c => (c.method, bodyParentKey c)) =
        [("GET", none), ("POST", some (.obj [("key", .str "par-1".toUpper)]))]) ∧
    ((issueUpdateRecord "cloud" [⟨"10000", false⟩, ⟨"10003", true⟩] "KEY-1"
        { issueType := some "10003" }).error.isSome = true ∧
     (issueUpdateRecord "cloud" [⟨"10000", false⟩, ⟨"10003", true⟩] "KEY-1"
        { issueType := some "10003" }).calls.map (fun c => c.method) = ["GET"]) ∧
    ((issueUpdateRecord "cloud" [⟨"10000", false⟩, ⟨"10003", true⟩] "KEY-1"
        { issueType := some "10003", parentIssueKey := some "par-1" }).error = none ∧
     (issueUpdateRecord "cloud" [⟨"10000", false⟩, ⟨"10003", true⟩] "KEY-1"
        { issueType := some "10003", parentIssueKey := some "par-1" }).calls.map
        (fun c => (c.method, bodyParentKey c)) =
        [("GET", none), ("PUT", some (.obj [("key", .str "par-1".toUpper)]))]) := by
  refine ⟨?_, ?_, ?_, ?_⟩
  · exact (jira_subtask_parent_validation "cloud" [⟨"10000", false⟩, ⟨"10003", true⟩]
      "s" "P1" "10003" {} [] "k" {}).1 (by decide) rfl
  · exact (jira_subtask_parent_validation "cloud" [⟨"10000", false⟩, ⟨"10003", true⟩]
      "s" "P1" "10003" { parentIssueKey := some "par-1" } [] "k" {}).2.1 "par-1"
      (by decide) rfl (by decide)
  · exact (jira_subtask_parent_validation "cloud" [⟨"10000", false⟩, ⟨"10003", true⟩]
      "s" "P1" "10003" {} [] "KEY-1" { issueType := some "10003" }).2.2.1
      (by decide) rfl
  · exact (jira_subtask_parent_validation "cloud" [⟨"10000", false⟩, ⟨"10003", true⟩]
      "s" "P1" "10003" {} [] "KEY-1"
      { issueType := some "10003", parentIssueKey := some "par-1" }).2.2.2 "par-1"
      (by decide) rfl (by decide)

/-- C4: sparse update — every entry of the `fields` object sent by the issue
update operation stems from an entry actually present (truthy) in the
collected `updateFields` input map; a field absent from the input map never
appears in the body at all, hence never as an explicit null. -/
theorem jira_update_sparse_fields (jv : String) (subs : List String)
    (uf : UpdateFields) (k : String) (v : JVal)
    (h : (k, v) ∈ finalUpdateFields jv subs uf) : uf.presentKey k := by
  simp only [finalUpdateFields] at h
  unfold UpdateFields.presentKey
  rcases mem_ite_assignKV _ _ _ _ _ h with h | hd
  · exact (mem_buildUpdateFields jv uf (k, v) h).imp id fun h => h.imp id fun h =>
      h.imp id fun h => h.imp id fun h => h.imp id fun h => h.imp id fun h =>
      h.imp id Or.inl
  · obtain ⟨hk, hb⟩ := hd
    have hp : struthy uf.parentIssueKey = true := (Bool.and_eq_true _ _ |>.mp hb).1
    iterate 8 right
    exact ⟨hk, hp⟩

/-- C4 witness: a singleton update map produces exactly its own field. -/
theorem jira_update_sparse_fields_witness :
    UpdateFields.presentKey { summary := some "New summary" } "summary" :=
  jira_update_sparse_fields "cloud" [] { summary := some "New summary" }
    "summary" (.str "New summary") (List.mem_cons_self _ _)

/-- C2 counterexample: a sub-task create record with no parent key raises the
validation error even though a network call — the issue-type lookup GET — has
already been issued for that record, so not every validation error precedes
every network call of its record. -/
theorem validation_error_after_lookup_counterexample :
    (issueCreateRecord "cloud" [⟨"10003", true⟩] "s" "P1" "10003" {} []).1.error.isSome
      = true ∧
    (issueCreateRecord "cloud" [⟨"10003", true⟩] "s" "P1" "10003" {} []).1.calls.map
      (fun c => c.method) = ["GET"] :=
  ⟨rfl, rfl⟩

/-- C2 (amended): every validation error aborts its record before any
MUTATING (POST/PUT) network call is issued for it; the malformed-JSON and
recipients-shape errors precede every network call of their record, while the
sub-task parent-missing error is raised only after the non-mutating
issue-type lookup GET of that record. -/
theorem validation_errors_before_mutating_calls
    (jv : String) (its : List IssueTypeBean) (summary projectId issueTypeId : String)
    (af : CreateAdditionalFields) (qs0 qs1 qs2 qs3 : List (String × JVal))
    (issueKey : String) (uf : UpdateFields) (p : CommentParams) (np : NotifyParams) :
    ((issueCreateRecord jv its summary projectId issueTypeId af qs0).1.error.isSome = true →
      (issueCreateRecord jv its summary projectId issueTypeId af qs0).1.calls.map
        (fun c => c.method) = ["GET"]) ∧
    ((issueUpdateRecord jv its issueKey uf).error.isSome = true →
      (issueUpdateRecord jv its issueKey uf).calls.map (fun c => c.method) = ["GET"]) ∧
    ((issueCommentAddRecord jv qs1 p).1.error.isSome = true →
      (issueCommentAddRecord jv qs1 p).1.calls = []) ∧
    ((issueCommentUpdateRecord jv qs2 p).1.error.isSome = true →
      (issueCommentUpdateRecord jv qs2 p).1.calls = []) ∧
    ((notifyRecord np qs3).error.isSome = true → (notifyRecord np qs3).calls = []) := by
  refine ⟨?_, ?_, ?_, ?_, ?_⟩
  · intro he
    by_cases hp : struthy af.parentIssueKey = false
    · by_cases hm : issueTypeId ∈ subtaskIds its
      · simp [issueCreateRecord, hp, hm]
      · simp [issueCreateRecord, hp, hm] at he
    · simp only [Bool.not_eq_false] at hp
      simp [issueCreateRecord, hp] at he
  · intro he
    by_cases hp : struthy uf.parentIssueKey = false
    · by_cases hm : includesOpt (subtaskIds its) uf.issueType = true
      · simp [issueUpdateRecord, hp, hm]
      · simp only [Bool.not_eq_true] at hm
        simp [issueUpdateRecord, hp, hm] at he
    · simp only [Bool.not_eq_false] at hp
      simp [issueUpdateRecord, hp] at he
  · intro he
    by_cases hj : p.jsonParameters = false
    · simp [issueCommentAddRecord, hj] at he
    · by_cases hemp : isEmptyStr (validateJSON p.commentJson) = true
      · simp [issueCommentAddRecord, hj, hemp]
      · simp only [Bool.not_eq_true] at hemp
        simp [issueCommentAddRecord, hj, hemp] at he
  · intro he
    by_cases hj : p.jsonParameters = false
    · simp [issueCommentUpdateRecord, hj] at he
    · by_cases hemp : isEmptyStr (validateJSON p.commentJson) = true
      · simp [issueCommentUpdateRecord, hj, hemp]
      · simp only [Bool.not_eq_true] at hemp
        simp [issueCommentUpdateRecord, hj, hemp] at he
  · intro he
    by_cases hj : np.jsonActive = false
    · rcases hto : buildTo np.recipients with e | toList
      · simp [notifyRecord, hj, hto]
      · rcases hres : buildRestrict np.restrictions with e | restrictList
        · simp [notifyRecord, hj, hto, hres]
        · simp [notifyRecord, hj, hto, hres] at he
    · simp [notifyRecord, hj] at he

/-- C2 witness: the five error paths at concrete inputs. -/
theorem validation_errors_before_mutating_calls_witness :
    ((issueCreateRecord "cloud" [⟨"10010", true⟩] "s" "P1" "10010" {} []).1.calls.map
      (fun c => c.method) = ["GET"]) ∧
    ((issueUpdateRecord "cloud" [⟨"10010", true⟩] "KEY-2"
        { issueType := some "10010" }).calls.map (fun c => c.method) = ["GET"]) ∧
    ((issueCommentAddRecord "cloud" []
        { jsonParameters := true, issueKey := "KEY-2" }).1.calls = []) ∧
    ((issueCommentUpdateRecord "cloud" []
        { jsonParameters := true, issueKey := "KEY-2" }).1.calls = []) ∧
    ((notifyRecord
        { issueKey := "KEY-2", jsonActive := false,
          recipients := some { reporter := some (.bool true) } } []).calls = []) := by
  obtain ⟨h1, h2, h3, h4, h5⟩ := validation_errors_before_mutating_calls
    "cloud" [⟨"10010", true⟩] "s" "P1" "10010" {} [] [] [] [] "KEY-2"
    { issueType := some "10010" } { jsonParameters := true, issueKey := "KEY-2" }
    { issueKey := "KEY-2", jsonActive := false,
      recipients := some { reporter := some (.bool true) } }
  exact ⟨h1 rfl, h2 rfl, h3 rfl, h4 rfl, h5 rfl⟩

/-- C7: with `jsonParameters = false`, the comment add and update operations
send the structured-document envelope as the `body` field when `jiraVersion`
is `cloud`, and the plain comment string unchanged when it is `server`. -/
theorem comment_doc_envelope (qs0 qs1 : List (String × JVal)) (p : CommentParams)
    (hjp : p.jsonParameters = false) :
    ((issueCommentAddRecord "cloud" qs0 p).1.calls.map
        (fun c => bodyField c "body") = [some (docEnvelope p.comment)]) ∧
    ((issueCommentAddRecord "server" qs0 p).1.calls.map
        (fun c => bodyField c "body") = [some (.str p.comment)]) ∧
    ((issueCommentUpdateRecord "cloud" qs1 p).1.calls.map
        (fun c => bodyField c "body") = [some (docEnvelope p.comment)]) ∧
    ((issueCommentUpdateRecord "server" qs1 p).1.calls.map
        (fun c => bodyField c "body") = [some (.str p.comment)]) := by
  by_cases hexp : jtruthy (getKV p.options "expand") = true
  all_goals
    refine ⟨?_, ?_, ?_, ?_⟩ <;>
      simp [issueCommentAddRecord, issueCommentUpdateRecord, hjp, hexp,
        bodyField, getKV_assignKV_self]

/-- C7 witness: a concrete plain-text comment on both API variants. -/
theorem comment_doc_envelope_witness :
    ((issueCommentAddRecord "cloud" []
        { jsonParameters := false, issueKey := "KEY-3", comment := "hello" }).1.calls.map
        (fun c => bodyField c "body") = [some (docEnvelope "hello")]) ∧
    ((issueCommentAddRecord "server" []
        { jsonParameters := false, issueKey := "KEY-3", comment := "hello" }).1.calls.map
        (fun c => bodyField c "body") = [some (.str "hello")]) ∧
    ((issueCommentUpdateRecord "cloud" []
        { jsonParameters := false, issueKey := "KEY-3", comment := "hello" }).1.calls.map
        (fun c => bodyField c "body") = [some (docEnvelope "hello")]) ∧
    ((issueCommentUpdateRecord "server" []
        { jsonParameters := false, issueKey := "KEY-3", comment := "hello" }).1.calls.map
        (fun c => bodyField c "body") = [some (.str "hello")]) :=
  comment_doc_envelope [] []
    { jsonParameters := false, issueKey := "KEY-3", comment := "hello" } rfl

/-- C3 counterexample: an issue notify invocation in raw-JSON mode whose
recipients JSON string is syntactically invalid raises no validation error
and still issues the notify POST, contrary to the claim that invalid JSON
fails with a validation error and issues no network call. -/
theorem notify_invalid_json_counterexample :
    (notifyRecord { issueKey := "KEY-4", jsonActive := true } []).error = none ∧
    (notifyRecord { issueKey := "KEY-4", jsonActive := true } []).calls.map
      (fun c => (c.method, c.path)) = [("POST", "/api/2/issue/KEY-4/notify")] :=
  ⟨rfl, rfl⟩

theorem getKV_notifyBaseBody (p : NotifyParams) (k : String)
    (h1 : k ≠ "textBody") (h2 : k ≠ "htmlBody") :
    getKV (notifyBaseBody p) k = none := by
  by_cases ht : jtruthy p.textBody = true <;>
    by_cases hh : jtruthy p.htmlBody = true <;>
      simp [notifyBaseBody, ht, hh, getKV, getKV_assignKV_ne,
        Ne.symm h1, Ne.symm h2]

/-- C3 (amended): in raw-JSON mode, the issue comment add and update
operations fail with a validation error and issue no network call when the
JSON string is invalid (or parses to the empty string), and otherwise forward
the parsed value verbatim as the body's `body` field; the issue notify
operation, by contrast, silently drops an invalid (or falsy-parsing) JSON
recipients value — the `to` field is omitted and the POST is still issued —
and forwards a truthy parsed value verbatim as the body's `to` field. -/
theorem jira_json_passthrough (jv : String) (qs0 qs1 qs2 : List (String × JVal))
    (p : CommentParams) (np : NotifyParams) (v w : JVal) :
    (p.jsonParameters = true → p.commentJson = none →
      (issueCommentAddRecord jv qs0 p).1.error.isSome = true ∧
      (issueCommentAddRecord jv qs0 p).1.calls = [] ∧
      (issueCommentUpdateRecord jv qs1 p).1.error.isSome = true ∧
      (issueCommentUpdateRecord jv qs1 p).1.calls = []) ∧
    (p.jsonParameters = true → p.commentJson = some v → isEmptyStr v = false →
      (issueCommentAddRecord jv qs0 p).1.error = none ∧
      (issueCommentAddRecord jv qs0 p).1.calls.map (fun c => bodyField c "body")
        = [some v] ∧
      (issueCommentUpdateRecord jv qs1 p).1.error = none ∧
      (issueCommentUpdateRecord jv qs1 p).1.calls.map (fun c => bodyField c "body")
        = [some v]) ∧
    (np.jsonActive = true → np.recipientsJson = none →
      (notifyRecord np qs2).error = none ∧
      (notifyRecord np qs2).calls.map (fun c => (c.method, bodyField c "to"))
        = [("POST", none)]) ∧
    (np.jsonActive = true → np.recipientsJson = some w → w.truthy = true →
      (notifyRecord np qs2).error = none ∧
      (notifyRecord np qs2).calls.map (fun c => bodyField c "to") = [some w]) := by
  refine ⟨?_, ?_, ?_, ?_⟩
  · intro hjp hcj
    by_cases hexp : jtruthy (getKV p.options "expand") = true <;>
      simp [issueCommentAddRecord, issueCommentUpdateRecord, hjp, hcj, hexp,
        validateJSON, isEmptyStr]
  · intro hjp hcj hne
    by_cases hexp : jtruthy (getKV p.options "expand") = true <;>
      simp [issueCommentAddRecord, issueCommentUpdateRecord, hjp, hcj, hexp,
        validateJSON, hne, bodyField, getKV_assignKV_self]
  · intro hj hrj
    have hto : getKV (notifyBaseBody np) "to" = none :=
      getKV_notifyBaseBody np "to" (by decide) (by decide)
    simp [notifyRecord, hj, hrj, validateJSON, JVal.truthy, bodyField,
      getKV_ite_assignKV_ne, hto]
  · intro hj hrj htr
    simp [notifyRecord, hj, hrj, validateJSON, htr, bodyField,
      getKV_ite_assignKV_ne, getKV_assignKV_self]

/-- C3 witness: the four raw-JSON paths at concrete inputs. -/
theorem jira_json_passthrough_witness :
    ((issueCommentAddRecord "cloud" []
        { jsonParameters := true, issueKey := "KEY-5" }).1.error.isSome = true ∧
     (issueCommentAddRecord "cloud" []
        { jsonParameters := true, issueKey := "KEY-5" }).1.calls = [] ∧
     (issueCommentUpdateRecord "cloud" []
        { jsonParameters := true, issueKey := "KEY-5" }).1.error.isSome = true ∧
     (issueCommentUpdateRecord "cloud" []
        { jsonParameters := true, issueKey := "KEY-5" }).1.calls = []) ∧
    ((issueCommentAddRecord "cloud" []
        { jsonParameters := true, issueKey := "KEY-6",
          commentJson := some (.obj [("type", .str "doc")]) }).1.error = none ∧
     (issueCommentAddRecord "cloud" []
        { jsonParameters := true, issueKey := "KEY-6",
          commentJson := some (.obj [("type", .str "doc")]) }).1.calls.map
        (fun c => bodyField c "body") = [some (.obj [("type", .str "doc")])] ∧
     (issueCommentUpdateRecord "cloud" []
        { jsonParameters := true, issueKey := "KEY-6",
          commentJson := some (.obj [("type", .str "doc")]) }).1.error = none ∧
     (issueCommentUpdateRecord "cloud" []
        { jsonParameters := true, issueKey := "KEY-6",
          commentJson := some (.obj [("type", .str "doc")]) }).1.calls.map
        (fun c => bodyField c "body") = [some (.obj [("type", .str "doc")])]) ∧
    ((notifyRecord { issueKey := "KEY-7", jsonActive := true } []).error = none ∧
     (notifyRecord { issueKey := "KEY-7", jsonActive := true } []).calls.map
        (fun c => (c.method, bodyField c "to")) = [("POST", none)]) ∧
    ((notifyRecord
        { issueKey := "KEY-8", jsonActive := true,
          recipientsJson := some (.obj [("reporter", .bool true)]) } []).error = none ∧
     (notifyRecord
        { issueKey := "KEY-8", jsonActive := true,
          recipientsJson := some (.obj [("reporter", .bool true)]) } []).calls.map
        (fun c => bodyField c "to") = [some (.obj [("reporter", .bool true)])]) := by
  refine ⟨?_, ?_, ?_, ?_⟩
  · exact (jira_json_passthrough "cloud" [] [] []
      { jsonParameters := true, issueKey := "KEY-5" }
      { issueKey := "x", jsonActive := true } .null .null).1 rfl rfl
  · exact (jira_json_passthrough "cloud" [] [] []
      { jsonParameters := true, issueKey := "KEY-6",
        commentJson := some (.obj [("type", .str "doc")]) }
      { issueKey := "x", jsonActive := true } (.obj [("type", .str "doc")])
      .null).2.1 rfl rfl rfl
  · exact (jira_json_passthrough "cloud" [] [] []
      { jsonParameters := true, issueKey := "x" }
      { issueKey := "KEY-7", jsonActive := true } .null .null).2.2.1 rfl rfl
  · exact (jira_json_passthrough "cloud" [] [] []
      { jsonParameters := true, issueKey := "x" }
      { issueKey := "KEY-8", jsonActive := true,
        recipientsJson := some (.obj [("reporter", .bool true)]) } .null
      (.obj [("reporter", .bool true)])).2.2.2 rfl rfl rfl

/-- C5: with "return all" = false and limit L the accumulated result list for
the record has length min(L, total available): the attachment getAll path
truncates the fetched list via slice, and the issue getAll handler wires the
limit into the outbound body as `maxResults` so that, against a search
endpoint honouring it, the appended `issues` array is the first-L page. -/
theorem getall_limit_truncation (att issues : List JVal) (L : Nat)
    (opts : IssueGetAllOptions) :
    (issueAttachmentGetAllRecord att false L).length = min L att.length ∧
    bodyField (issueGetAllRecordLimited (jiraSearchResponse issues) opts L).1
      "maxResults" = some (.num L) ∧
    (issueGetAllRecordLimited (jiraSearchResponse issues) opts L).2.length
      = min L issues.length := by
  refine ⟨?_, ?_, ?_⟩
  · simp [issueAttachmentGetAllRecord]
  · simp [issueGetAllRecordLimited, bodyField, getKV_assignKV_self]
  · simp [issueGetAllRecordLimited, jiraSearchResponse, responseIssues,
      getKV_assignKV_self, getKV]

theorem getKV_issueGetRecord_fst (qs : List (String × JVal)) (k : String)
    (af : IssueGetAdditionalFields) :
    getKV (issueGetRecord qs k af).1 "fields" =
      if jtruthy af.fields then some (af.fields.getD .null) else getKV qs "fields" := by
  by_cases hf : jtruthy af.fields = true <;>
    simp [issueGetRecord, getKV_ite_assignKV_ne, hf, getKV_assignKV_self]

theorem getKV_issueGetRecord_call (qs : List (String × JVal)) (k : String)
    (af : IssueGetAdditionalFields) :
    getKV (issueGetRecord qs k af).2.qs "fields" =
      getKV (issueGetRecord qs k af).1 "fields" := rfl

/-- C6 counterexample: in an issue get batch, the `fields` query-string
parameter stored while processing the first record reappears in the outbound
request issued for the second record, which supplied no such parameter. -/
theorem issue_get_qs_leak_counterexample :
    (issueGetBatch [("KEY-1", { fields := some (.str "summary") }), ("KEY-2", {})]).map
      (fun c => (c.path, getKV c.qs "fields")) =
      [("/api/2/issue/KEY-1", some (.str "summary")),
       ("/api/2/issue/KEY-2", some (.str "summary"))] := rfl

/-- C6 (amended): the query-string map is a single mutable object shared by
every record of one execute invocation; a parameter stored while processing
record i persists into the outbound request of a later record that does not
itself overwrite it. -/
theorem issue_get_qs_shared (k1 k2 : String) (v : JVal)
    (af1 af2 : IssueGetAdditionalFields)
    (h1 : af1.fields = some v) (hv : v.truthy = true)
    (h2 : jtruthy af2.fields = false) :
    (issueGetBatch [(k1, af1), (k2, af2)]).map (fun c => getKV c.qs "fields") =
      [some v, some v] := by
  have hf1 : jtruthy (some v) = true := by simpa [jtruthy] using hv
  simp [issueGetBatch, getKV_issueGetRecord_call, getKV_issueGetRecord_fst,
    h1, hf1, h2]

/-- C6 amended witness: the concrete two-record leak. -/
theorem issue_get_qs_shared_witness :
    (issueGetBatch [("KEY-1", { fields := some (.str "summary") }),
        ("KEY-2", {})]).map (fun c => getKV c.qs "fields") =
      [some (.str "summary"), some (.str "summary")] :=
  issue_get_qs_shared "KEY-1" "KEY-2" (.str "summary")
    { fields := some (.str "summary") } {} rfl rfl rfl

/-- C8: for every value of the `dataToSend` discriminator, the `fieldsUi`
group is visible exactly when it is `defineBelow` and `inputsToIgnore`
exactly when it is `autoMapInputData` — for both document create and update —
so exactly one of the two groups is active, and the built request body takes
its fields from exactly that group. -/
theorem es_document_discriminator_exclusive (d : String)
    (f i : List (String × JVal)) (ig : String) (hd : d ∈ dataToSendOptions) :
    (fieldsUiCreateShow.visible "document" "create" d = true ↔ d = "defineBelow") ∧
    (inputsToIgnoreCreateShow.visible "document" "create" d = true ↔
      d = "autoMapInputData") ∧
    (fieldsUiUpdateShow.visible "document" "update" d = true ↔ d = "defineBelow") ∧
    (inputsToIgnoreUpdateShow.visible "document" "update" d = true ↔
      d = "autoMapInputData") ∧
    Xor' (fieldsUiCreateShow.visible "document" "create" d = true)
      (inputsToIgnoreCreateShow.visible "document" "create" d = true) ∧
    Xor' (fieldsUiUpdateShow.visible "document" "update" d = true)
      (inputsToIgnoreUpdateShow.visible "document" "update" d = true) ∧
    (d = "defineBelow" → esDocumentBody d f i ig = f) ∧
    (d = "autoMapInputData" →
      esDocumentBody d f i ig =
        i.filter (fun p => !(((ig.splitOn ",").map (fun s => s.trim)).contains p.1))) := by
  rcases (by simpa [dataToSendOptions] using hd : d = "defineBelow" ∨ d = "autoMapInputData")
    with hdv | hdv <;> subst hdv <;>
    refine ⟨by decide, by decide, by decide, by decide, by decide, by decide, ?_, ?_⟩ <;>
    intro h <;> simp_all [esDocumentBody]

/-- C8 witness: the discriminator at `defineBelow` with a concrete field
group. -/
theorem es_document_discriminator_exclusive_witness :
    (fieldsUiCreateShow.visible "document" "create" "defineBelow" = true ↔
      ("defineBelow" : String) = "defineBelow") ∧
    (inputsToIgnoreCreateShow.visible "document" "create" "defineBelow" = true ↔
      ("defineBelow" : String) = "autoMapInputData") ∧
    (fieldsUiUpdateShow.visible "document" "update" "defineBelow" = true ↔
      ("defineBelow" : String) = "defineBelow") ∧
    (inputsToIgnoreUpdateShow.visible "document" "update" "defineBelow" = true ↔
      ("defineBelow" : String) = "autoMapInputData") ∧
    Xor' (fieldsUiCreateShow.visible "document" "create" "defineBelow" = true)
      (inputsToIgnoreCreateShow.visible "document" "create" "defineBelow" = true) ∧
    Xor' (fieldsUiUpdateShow.visible "document" "update" "defineBelow" = true)
      (inputsToIgnoreUpdateShow.visible "document" "update" "defineBelow" = true) ∧
    (("defineBelow" : String) = "defineBelow" →
      esDocumentBody "defineBelow" [("title", .str "x")] [] "" = [("title", .str "x")]) ∧
    (("defineBelow" : String) = "autoMapInputData" →
      esDocumentBody "defineBelow" [("title", .str "x")] [] "" =
        List.filter (fun p => !((("".splitOn ",").map (fun s => s.trim)).contains p.1)) []) :=
  es_document_discriminator_exclusive "defineBelow" [("title", .str "x")] [] ""
    (by decide)

/-- C9: the recipients object built by the issue notify operation never
contains a `voters` key; the input `watchers` value is stored only when the
input `assignee` is truthy, and a truthy input `voters` value is written into
the `watchers` key (overwriting any stored `watchers` value). -/
theorem notify_recipients_watchers_voters (r : NotifyRecipientsValues)
    (out : List (String × Option JVal))
    (h : buildNotificationRecipients r = .ok out) :
    getKV out "voters" = none ∧
    (jtruthy r.voters = true → getKV out "watchers" = some r.voters) ∧
    (jtruthy r.voters = false → jtruthy r.assignee = true →
      getKV out "watchers" = some r.watchers) ∧
    (jtruthy r.voters = false → jtruthy r.assignee = false →
      getKV out "watchers" = none) := by
  rcases hu : r.users with _ | us
  · simp [buildNotificationRecipients, hu] at h
  rcases hg : r.groups with _ | gs
  · simp [buildNotificationRecipients, hu, hg] at h
  simp only [buildNotificationRecipients, hu, hg, Except.ok.injEq] at h
  subst h
  refine ⟨?_, ?_, ?_, ?_⟩
  · simp [getKV_ite_assignKV_ne, getKV]
  · intro hv
    simp [hv, getKV_ite_assignKV_ne, getKV_assignKV_self]
  · intro hv ha
    simp [hv, ha, getKV_ite_assignKV_ne, getKV_assignKV_self]
  · intro hv ha
    simp [hv, ha, getKV_ite_assignKV_ne, getKV]

/-- C9 witness: truthy voters with no assignee at a concrete input. -/
theorem notify_recipients_watchers_voters_witness :
    getKV [("watchers", some (JVal.bool true))] "voters" = none ∧
    (jtruthy (some (.bool true)) = true →
      getKV [("watchers", some (JVal.bool true))] "watchers" = some (some (.bool true))) ∧
    (jtruthy (some (.bool true)) = false → jtruthy (none : Option JVal) = true →
      getKV [("watchers", some (JVal.bool true))] "watchers" = some none) ∧
    (jtruthy (some (.bool true)) = false → jtruthy (none : Option JVal) = false →
      getKV [("watchers", some (JVal.bool true))] "watchers" = none) :=
  notify_recipients_watchers_voters
    { voters := some (.bool true), users := some [], groups := some [] }
    [("watchers", some (.bool true))] rfl

/-- C10: with `jsonParameters = false`, a supplied recipients object lacking
the `users` array (or a supplied restrictions object lacking the `groups`
array) makes the notify handler fail with an unguarded JS `TypeError` —
reading `length` of `undefined` — not a `NodeOperationError` validation
error, before the notify POST is issued. -/
theorem notify_missing_users_typeerror :
    (∀ (np : NotifyParams) (qs : List (String × JVal)) (r : NotifyRecipientsValues),
      np.jsonActive = false → np.recipients = some r → r.users = none →
      notifyRecord np qs =
        { calls := [],
          error := some (.typeError
            "Cannot read properties of undefined (reading length)") }) ∧
    (∀ (np : NotifyParams) (qs : List (String × JVal))
      (rr : NotifyRestrictionsValues) (toList : List (String × Option JVal)),
      np.jsonActive = false → buildTo np.recipients = .ok toList →
      np.restrictions = some rr → rr.groups = none →
      notifyRecord np qs =
        { calls := [],
          error := some (.typeError
            "Cannot read properties of undefined (reading length)") }) := by
  constructor
  · intro np qs r hj hr hu
    have hto : buildTo np.recipients =
        .error (.typeError "Cannot read properties of undefined (reading length)") := by
      simp [buildTo, hr, buildNotificationRecipients, hu]
    simp [notifyRecord, hj, hto]
  · intro np qs rr toList hj hok hrr hg
    have hres : buildRestrict np.restrictions =
        .error (.typeError "Cannot read properties of undefined (reading length)") := by
      simp [buildRestrict, hrr, buildNotificationRestrictions, hg]
    simp [notifyRecord, hj, hok, hres]

/-- C10 witness: a recipients object with no `users` property, and a
restrictions object with no `groups` property. -/
theorem notify_missing_users_typeerror_witness :
    notifyRecord
        { issueKey := "KEY-9", jsonActive := false, recipients := some {} } [] =
      { calls := [],
        error := some (.typeError
          "Cannot read properties of undefined (reading length)") } ∧
    notifyRecord
        { issueKey := "KEY-9", jsonActive := false, restrictions := some {} } [] =
      { calls := [],
        error := some (.typeError
          "Cannot read properties of undefined (reading length)") } :=
  ⟨notify_missing_users_typeerror.1
      { issueKey := "KEY-9", jsonActive := false, recipients := some {} } []
      {} rfl rfl rfl,
   notify_missing_users_typeerror.2
      { issueKey := "KEY-9", jsonActive := false, restrictions := some {} } []
      {} [] rfl rfl rfl rfl⟩

end Connector
